import Mathlib

/-!
Verification of the semantic-tag streaming/reconciliation mechanism of the
knowsee repository: the patched stream translator
(src/sagent/patches/thought_tags.py), the tag-embedding callbacks
(src/sagent/callbacks/widgets.py, query_attempts.py, grounding.py,
data_analyst.py), the response helper (src/sagent/utils/response_helpers.py)
and the session-history reconstruction (src/sagent/main.py, get_session).

Python values are embedded shallowly: strings as String, optional attributes
as Option, JSON-serializable values as the JsonVal inductive below, a raised
and caught exception as the Option/none branch of the function that the
try/except surrounds.
-/

namespace Knowsee

/-! ## Stream accumulator (src/sagent/patches/thought_tags.py) -/

/-- One part of the content of an ADK event: its text and the thought flag.
The source reads part.text (None and the empty string are both falsy; here
the empty string stands for both) and part.thought. -/
structure AdkPart where
  text : String
  thought : Bool
deriving DecidableEq

/-- The attributes of an ADK event that _patched_translate_text_content
reads: content parts, is_final_response, the streaming-chunk flag (named
partial in the source), turn_complete, and whether finish_reason is set. -/
structure AdkEvent where
  parts : List AdkPart
  isFinalResponse : Bool
  isPartial : Bool
  turnComplete : Bool
  hasFinishReason : Bool
deriving DecidableEq

/-- The EventTranslator streaming state the patch reads and writes.
Message ids (uuid4 strings in the source) are modelled as naturals drawn
from the fresh-id counter nextId; the source truthiness test on
_streaming_message_id (a non-empty uuid string or None) is isSome here. -/
structure TranslatorState where
  isStreaming : Bool
  streamingMessageId : Option Nat
  currentStreamText : String
  lastStreamedText : Option String
  lastStreamedRunId : Option String
  nextId : Nat
deriving DecidableEq

/-- A fresh translator: not streaming, nothing accumulated or memorised. -/
def initState : TranslatorState :=
  ⟨false, none, "", none, none, 0⟩

/-- The AG-UI text message events the translator yields. -/
inductive AgEvent where
  | textStart (messageId : Nat)
  | textContent (messageId : Nat) (delta : String)
  | textEnd (messageId : Nat)
deriving DecidableEq

/-- Result of one call of the translator: the yielded events (in order) and
the state after the call. -/
structure StepOut where
  events : List AgEvent
  state : TranslatorState
deriving DecidableEq

def THOUGHT_TAG_OPEN : String := "<llm:adk:soch>"

def THOUGHT_TAG_CLOSE : String := "</llm:adk:soch>"

/-- Concatenation of a list of strings ("".join of the source). -/
def concatStrings : List String → String
  | [] => ""
  | s :: rest => s ++ concatStrings rest

/-- sep.join of the source: the strings interleaved with the separator. -/
def joinSep (sep : String) : List String → String
  | [] => ""
  | [s] => s
  | s :: rest => s ++ sep ++ joinSep sep rest

/-- Truthiness of an optional string: a non-empty string. -/
def optStringTruthy : Option String → Bool
  | some t => !(t == "")
  | none => false

/-- Lines 89-102 of thought_tags.py: the text of all parts, each thought
part wrapped in the semantic tags, concatenated. A part with empty text
contributes nothing, so the combined text is empty exactly when the
text_parts list of the source is empty. -/
def combinedText (parts : List AdkPart) : String :=
  concatStrings (parts.filterMap fun p =>
    if p.text == "" then none
    else if p.thought then some (THOUGHT_TAG_OPEN ++ p.text ++ THOUGHT_TAG_CLOSE)
    else some p.text)

/-- Lines 156-160: whether this call will close the message. Evaluated with
the value _is_streaming has before the start block runs. -/
def shouldSendEnd (e : AdkEvent) (isStreamingNow : Bool) : Bool :=
  (e.turnComplete && !e.isPartial)
    || (e.isFinalResponse && !e.isPartial)
    || (e.hasFinishReason && isStreamingNow)

/-- Lines 106-122 and equally 191-202: close the active stream. When the
accumulated text is non-empty, record it and the run id as the dedup
markers; emit the END event for the active message id; reset the
accumulated text and clear the streaming state. -/
def closeStream (s : TranslatorState) (runId : String) : StepOut :=
  let s1 : TranslatorState :=
    if s.currentStreamText == "" then s
    else { s with lastStreamedText := some s.currentStreamText,
                  lastStreamedRunId := some runId }
  ⟨[AgEvent.textEnd (s.streamingMessageId.getD 0)],
   { s1 with currentStreamText := "", streamingMessageId := none,
             isStreaming := false }⟩

/-- Lines 140-142 and 147-149: reset the accumulated text and drop the
dedup markers. -/
def clearDedup (s : TranslatorState) : TranslatorState :=
  { s with currentStreamText := "", lastStreamedText := none,
           lastStreamedRunId := none }

/-- Lines 164-174: when not yet streaming, pick a fresh message id, enter
the streaming state and emit the START event. -/
def startPhase (s : TranslatorState) : StepOut :=
  if s.isStreaming then ⟨[], s⟩
  else
    ⟨[AgEvent.textStart s.nextId],
     { s with streamingMessageId := some s.nextId, isStreaming := true,
              currentStreamText := "", nextId := s.nextId + 1 }⟩

/-- Lines 176-189: emit the content delta unless this is consolidated text
(a non-partial fragment while the stream was already active before this
call), in which case it is skipped. -/
def contentPhase (wasAlreadyStreaming : Bool) (e : AdkEvent) (combined : String)
    (s : TranslatorState) : StepOut :=
  if wasAlreadyStreaming && !e.isPartial then ⟨[], s⟩
  else
    ⟨[AgEvent.textContent (s.streamingMessageId.getD 0) combined],
     { s with currentStreamText := s.currentStreamText ++ combined }⟩

/-- Lines 156-202: the streaming path taken by fragments that carry text to
deliver (and by final-response fragments that were not discarded). -/
def streamPhase (s : TranslatorState) (e : AdkEvent) (runId combined : String) :
    StepOut :=
  let sse := shouldSendEnd e s.isStreaming
  let was := s.isStreaming
  let o1 := startPhase s
  let o2 := contentPhase was e combined o1.state
  if sse then
    let o3 := closeStream o2.state runId
    ⟨o1.events ++ o2.events ++ o3.events, o3.state⟩
  else
    ⟨o1.events ++ o2.events, o2.state⟩

/-- The patched EventTranslator._translate_text_content, lines 56-202 of
src/sagent/patches/thought_tags.py, as a function from the pre-call state
and the fragment to the yielded events and the post-call state. -/
def translateTextContent (s : TranslatorState) (e : AdkEvent) (runId : String) :
    StepOut :=
  let combined := combinedText e.parts
  if combined == "" && !e.isFinalResponse then
    ⟨[], s⟩
  else if e.isFinalResponse && (s.isStreaming && s.streamingMessageId.isSome) then
    closeStream s runId
  else if e.isFinalResponse
      && (s.lastStreamedRunId == some runId && optStringTruthy s.lastStreamedText) then
    ⟨[], clearDedup s⟩
  else if e.isFinalResponse && combined == "" then
    ⟨[], clearDedup s⟩
  else if combined == "" then
    ⟨[], s⟩
  else
    streamPhase s e runId combined

/-- Process a sequence of fragments of one run, concatenating the yielded
events in order. -/
def runFragments (s : TranslatorState) (es : List AdkEvent) (runId : String) :
    List AgEvent × TranslatorState :=
  match es with
  | [] => ([], s)
  | e :: rest =>
      let out := translateTextContent s e runId
      let tail := runFragments out.state rest runId
      (out.events ++ tail.1, tail.2)

def isStartEv : AgEvent → Bool
  | .textStart _ => true
  | _ => false

def isEndEv : AgEvent → Bool
  | .textEnd _ => true
  | _ => false

def isContentEv : AgEvent → Bool
  | .textContent _ _ => true
  | _ => false

def countStarts (evs : List AgEvent) : Nat := (evs.filter isStartEv).length

def countEnds (evs : List AgEvent) : Nat := (evs.filter isEndEv).length

/-- The visible text of an event sequence: the content deltas concatenated. -/
def outputText (evs : List AgEvent) : String :=
  concatStrings (evs.filterMap fun ev =>
    match ev with
    | .textContent _ d => some d
    | _ => none)

/-- One step of the framing automaton: the open message id (none when no
message is active) against the next event. none means the framing is
violated: a start inside an active message, or content or an end without an
active message or with a foreign message id. -/
def framingStep : Option Nat → AgEvent → Option (Option Nat)
  | none, .textStart i => some (some i)
  | some i, .textContent j _ => if i == j then some (some i) else none
  | some i, .textEnd j => if i == j then some none else none
  | _, _ => none

/-- Run the framing automaton over an event sequence. -/
def checkFraming : Option Nat → List AgEvent → Option (Option Nat)
  | o, [] => some o
  | o, ev :: rest =>
      match framingStep o ev with
      | some o2 => checkFraming o2 rest
      | none => none

/-! ## JSON values and json.dumps -/

/-- A Python value handed to json.dumps: the JSON-serializable shapes, plus
unserializable for an object json.dumps rejects by raising TypeError. -/
inductive JsonVal where
  | null
  | bool (b : Bool)
  | num (n : Int)
  | str (s : String)
  | arr (xs : List JsonVal)
  | obj (fields : List (String × JsonVal))
  | unserializable

/-- JSON string escaping for the characters our payloads can contain
(quote and backslash; the model covers the ASCII fragment the repository
serializes). -/
def escapeChar (c : Char) : String :=
  if c = '"' then "\\\"" else if c = '\\' then "\\\\" else String.singleton c

def escapeString (s : String) : String :=
  String.join (s.data.map escapeChar)

mutual
/-- json.dumps with separators (",", ":") as the callbacks call it: none
models the raised TypeError on an unserializable object. -/
def dumps : JsonVal → Option String
  | .null => some "null"
  | .bool true => some "true"
  | .bool false => some "false"
  | .num n => some (toString n)
  | .str s => some ("\"" ++ escapeString s ++ "\"")
  | .arr xs => (dumpsArr xs).map (fun parts => "[" ++ String.intercalate "," parts ++ "]")
  | .obj fs => (dumpsObj fs).map (fun parts => "\x7b" ++ String.intercalate "," parts ++ "\x7d")
  | .unserializable => none

def dumpsArr : List JsonVal → Option (List String)
  | [] => some []
  | x :: xs => do
      let s ← dumps x
      let rest ← dumpsArr xs
      some (s :: rest)

def dumpsObj : List (String × JsonVal) → Option (List String)
  | [] => some []
  | (k, v) :: fs => do
      let s ← dumps v
      let rest ← dumpsObj fs
      some (("\"" ++ escapeString k ++ "\":" ++ s) :: rest)
end

/-- Python truthiness of a JSON-like value: empty containers, empty string,
zero, False and None are falsy. -/
def jsonTruthy : JsonVal → Bool
  | .null => false
  | .bool b => b
  | .num n => !(n == 0)
  | .str s => !(s == "")
  | .arr xs => !xs.isEmpty
  | .obj fs => !fs.isEmpty
  | .unserializable => true

/-! ## Responses and parts (google.genai types as the callbacks read them) -/

/-- A function_call part payload: name, id and the args mapping. -/
structure FunctionCall where
  name : Option String
  id : Option String
  args : Option JsonVal

/-- A function_response part payload: the originating call id and the
response mapping. -/
structure FunctionResponse where
  id : Option String
  response : Option JsonVal

/-- One content part: text (None and "" both falsy), the thought flag, and
the optional function_call / function_response payloads. -/
structure GenPart where
  text : Option String
  thought : Bool
  functionCall : Option FunctionCall
  functionResponse : Option FunctionResponse

/-- types.Part.from_text: a plain text part. -/
def partFromText (t : String) : GenPart :=
  ⟨some t, false, none, none⟩

/-- A content object holding the parts list. -/
structure GenContent where
  parts : List GenPart

/-- The web attributes of a grounding chunk. -/
structure WebInfo where
  title : Option String
  uri : Option String
  domain : Option String
deriving DecidableEq

/-- A grounding chunk: web is None for non-web chunks. -/
structure GroundingChunk where
  web : Option WebInfo
deriving DecidableEq

/-- The segment of a grounding support. -/
structure GroundingSegment where
  text : Option String
  startIndex : Option Int
  endIndex : Option Int
deriving DecidableEq

/-- A grounding support with its chunk indices (the source guards the list
with "or []", so None is modelled as the empty list). -/
structure GroundingSupport where
  segment : Option GroundingSegment
  groundingChunkIndices : List Nat
deriving DecidableEq

/-- The grounding metadata attributes capture_grounding_metadata reads.
The source guards every list with "or []", so None and [] coincide and
both are modelled as the empty list. -/
structure GroundingMetadata where
  groundingChunks : List GroundingChunk
  groundingSupports : List GroundingSupport
  webSearchQueries : List String
deriving DecidableEq

/-- The attributes of an LlmResponse the callbacks read. content is None or
a content object (a pydantic object is always truthy, so the source test
"not llm_response.content" means content is None). -/
structure LlmResponse where
  content : Option GenContent
  groundingMetadata : Option GroundingMetadata

/-! ## append_tag_to_response (src/sagent/utils/response_helpers.py) -/

/-- A part is eligible for the tag append when its text is truthy and it is
not a thought part (lines 25-27). -/
def eligiblePart (p : GenPart) : Bool :=
  optStringTruthy p.text && !p.thought

/-- The backwards search of lines 25-29: append the tag, after a newline,
to the text of the last eligible part; none when no part is eligible. -/
def appendToLast (tag : String) : List GenPart → Option (List GenPart)
  | [] => none
  | p :: rest =>
      match appendToLast tag rest with
      | some rest2 => some (p :: rest2)
      | none =>
          if eligiblePart p then
            some ({ p with text := some (p.text.getD "" ++ "\n" ++ tag) } :: rest)
          else none

/-- The index of the last eligible part, counted from the front. -/
def lastEligibleIdx : List GenPart → Option Nat
  | [] => none
  | p :: rest =>
      match lastEligibleIdx rest with
      | some i => some (i + 1)
      | none => if eligiblePart p then some 0 else none

/-- Result of append_tag_to_response: the response (mutated in place by the
source) and the returned boolean. -/
structure AppendOut where
  resp : LlmResponse
  ok : Bool

/-- append_tag_to_response, lines 7-33 of response_helpers.py. False with
the response untouched when there is no content or the parts list is
empty; otherwise the tag goes onto the last eligible part, or onto a fresh
text part appended at the end when no part is eligible. -/
def append_tag_to_response (r : LlmResponse) (tag : String) : AppendOut :=
  match r.content with
  | none => ⟨r, false⟩
  | some c =>
      if c.parts.isEmpty then ⟨r, false⟩
      else
        match appendToLast tag c.parts with
        | some parts2 => ⟨⟨some ⟨parts2⟩, r.groundingMetadata⟩, true⟩
        | none => ⟨⟨some ⟨c.parts ++ [partFromText tag]⟩, r.groundingMetadata⟩, true⟩

/-! ## Side-channel callbacks (src/sagent/callbacks) -/

/-- The session-state keys the data analyst callbacks read and write. -/
structure SessionState where
  pendingWidgets : List JsonVal
  queryAttempts : List JsonVal

def WIDGET_TAG_OPEN : String := "<llm:data:widget>"

def WIDGET_TAG_CLOSE : String := "</llm:data:widget>"

def QUERIES_TAG_OPEN : String := "<llm:data:queries>"

def QUERIES_TAG_CLOSE : String := "</llm:data:queries>"

def SOURCES_TAG_OPEN : String := "<llm:adk:sources>"

def SOURCES_TAG_CLOSE : String := "</llm:adk:sources>"

/-- Result of one callback call: the returned value (None for unchanged),
the session state, and the response object as left by in-place mutation. -/
structure CaptureOut where
  result : Option LlmResponse
  state : SessionState
  resp : LlmResponse

/-- Lines 51-54 of widgets.py: one widget tag per widget; none when
json.dumps raises on some widget. -/
def widgetTags : List JsonVal → Option (List String)
  | [] => some []
  | w :: ws => do
      let j ← dumps w
      let rest ← widgetTags ws
      some ((WIDGET_TAG_OPEN ++ j ++ WIDGET_TAG_CLOSE) :: rest)

/-- capture_widgets, lines 22-66 of widgets.py. The try/except that logs and
swallows any exception is modelled by the none branches: a serialization
failure returns None with state and response untouched. The pending-widgets
buffer is cleared only after append_tag_to_response returned True. -/
def capture_widgets (st : SessionState) (resp : LlmResponse) : CaptureOut :=
  if st.pendingWidgets.isEmpty then ⟨none, st, resp⟩
  else
    match widgetTags st.pendingWidgets with
    | none => ⟨none, st, resp⟩
    | some tags =>
        let combined := joinSep "\n" tags
        let out := append_tag_to_response resp combined
        if out.ok then
          ⟨some out.resp, { st with pendingWidgets := [] }, out.resp⟩
        else ⟨none, st, out.resp⟩

/-- The per-attempt lookup attempt["success"] that the logging line of
capture_query_attempts evaluates: none models the KeyError/TypeError
raised when an attempt is not a mapping with that key. -/
def successLookup : JsonVal → Option JsonVal
  | .obj fs => (fs.find? fun kv => kv.1 == "success").map (fun kv => kv.2)
  | _ => none

/-- sum(1 for a in attempts if a["success"]) of line 57 of
query_attempts.py: none when some lookup raises. -/
def countSuccesses : List JsonVal → Option Nat
  | [] => some 0
  | a :: rest => do
      let v ← successLookup a
      let n ← countSuccesses rest
      some (n + (if jsonTruthy v then 1 else 0))

/-- capture_query_attempts, lines 22-65 of query_attempts.py. The logging
line runs between the successful append and the buffer clear, so its
evaluation is part of the try block: if it raises, the response has already
been mutated but the buffer is not cleared and None is returned. -/
def capture_query_attempts (st : SessionState) (resp : LlmResponse) : CaptureOut :=
  if st.queryAttempts.isEmpty then ⟨none, st, resp⟩
  else
    match dumps (JsonVal.obj [("attempts", JsonVal.arr st.queryAttempts)]) with
    | none => ⟨none, st, resp⟩
    | some queriesJson =>
        let tag := QUERIES_TAG_OPEN ++ queriesJson ++ QUERIES_TAG_CLOSE
        let out := append_tag_to_response resp tag
        if out.ok then
          match countSuccesses st.queryAttempts with
          | none => ⟨none, st, out.resp⟩
          | some _ => ⟨some out.resp, { st with queryAttempts := [] }, out.resp⟩
        else ⟨none, st, out.resp⟩

/-- Result of the combined data analyst callback: the returned value and
the session state (the response object itself is result when not None). -/
structure ChainOut where
  result : Option LlmResponse
  state : SessionState

/-- data_analyst_after_model_callback, lines 18-49 of data_analyst.py:
query attempts first, then widgets, on the same (in-place mutated)
response object; the modified response is returned when either callback
reported a change. -/
def data_analyst_after_model_callback (st : SessionState) (resp : LlmResponse) :
    ChainOut :=
  let o1 := capture_query_attempts st resp
  let o2 := capture_widgets o1.state o1.resp
  ⟨if o1.result.isSome || o2.result.isSome then some o2.resp else none, o2.state⟩

/-! ## Grounding metadata serialization (src/sagent/callbacks/grounding.py) -/

/-- An optional string as the JSON value the source serializes it to. -/
def optStrJson : Option String → JsonVal
  | some s => .str s
  | none => .null

/-- An optional integer as the JSON value the source serializes it to. -/
def optIntJson : Option Int → JsonVal
  | some n => .num n
  | none => .null

/-- Lines 36-45: the sources list, one {title, uri, domain} object per
chunk that has web data. -/
def groundingSources (m : GroundingMetadata) : List JsonVal :=
  m.groundingChunks.filterMap fun ch =>
    ch.web.map fun w =>
      JsonVal.obj [("title", optStrJson w.title), ("uri", optStrJson w.uri),
                   ("domain", optStrJson w.domain)]

/-- Lines 47-57: the supports list, one object per support that has a
segment. -/
def groundingSupportsJson (m : GroundingMetadata) : List JsonVal :=
  m.groundingSupports.filterMap fun sup =>
    sup.segment.map fun seg =>
      JsonVal.obj [("text", optStrJson seg.text),
                   ("startIndex", optIntJson seg.startIndex),
                   ("endIndex", optIntJson seg.endIndex),
                   ("sourceIndices",
                    JsonVal.arr (sup.groundingChunkIndices.map fun i => JsonVal.num i))]

/-- _serialize_grounding_metadata, lines 22-66 of grounding.py: the dict
with the keys queries, sources and supports, in that insertion order. -/
def serialize_grounding_metadata (m : GroundingMetadata) : JsonVal :=
  JsonVal.obj
    [("queries", JsonVal.arr (m.webSearchQueries.map JsonVal.str)),
     ("sources", JsonVal.arr (groundingSources m)),
     ("supports", JsonVal.arr (groundingSupportsJson m))]

/-- The keys of a JSON object value. -/
def objKeys : JsonVal → List String
  | .obj fs => fs.map fun kv => kv.1
  | _ => []

/-- capture_grounding_metadata, lines 69-133 of grounding.py, returning the
returned value and the in-place mutated response. The append logic of
lines 111-123 duplicates append_tag_to_response except that a response
without content (or with no parts) falls through to return None. -/
def capture_grounding_metadata (resp : LlmResponse) :
    Option LlmResponse × LlmResponse :=
  match resp.groundingMetadata with
  | none => (none, resp)
  | some m =>
      if m.groundingChunks.isEmpty then (none, resp)
      else
        let serialized := serialize_grounding_metadata m
        if (groundingSources m).isEmpty then (none, resp)
        else
          match dumps serialized with
          | none => (none, resp)
          | some sourcesJson =>
              let tag := SOURCES_TAG_OPEN ++ sourcesJson ++ SOURCES_TAG_CLOSE
              match resp.content with
              | none => (none, resp)
              | some c =>
                  if c.parts.isEmpty then (none, resp)
                  else
                    let parts2 :=
                      match appendToLast tag c.parts with
                      | some ps => ps
                      | none => c.parts ++ [partFromText tag]
                    let r2 : LlmResponse := ⟨some ⟨parts2⟩, resp.groundingMetadata⟩
                    (some r2, r2)

/-! ## Session history reconstruction (src/sagent/main.py, get_session) -/

def toolTagOpen (name id : String) : String :=
  "<llm:adk:tool name=\"" ++ name ++ "\" id=\"" ++ id ++ "\">"

def TOOL_TAG_CLOSE : String := "</llm:adk:tool>"

def toolResultTagOpen (id : String) : String :=
  "<llm:adk:tool-result id=\"" ++ id ++ "\">"

def TOOL_RESULT_TAG_CLOSE : String := "</llm:adk:tool-result>"

/-- The attributes of a persisted session event that get_session reads. -/
structure SessionEvent where
  content : Option GenContent
  invocationId : Option String
  author : String
  timestamp : Option Int

/-- One reconstructed message of the session detail reply. -/
structure HistMessage where
  role : String
  content : String
  timestamp : Option Int
  invocationId : String
deriving DecidableEq

/-- json.dumps(response) if response else a literal empty object (line 439
and line 484 use the same pattern for responses and args). none models a
dumps that raises, which aborts the whole endpoint into its error reply. -/
def resultJson : Option JsonVal → Option String
  | some r => if jsonTruthy r then dumps r else some "\x7b\x7d"
  | none => some "\x7b\x7d"

/-- The first pass, lines 431-441: every function_response write into the
pending_tool_results dict, in event order. A later write with the same id
overwrites an earlier one, so the dict lookup takes the last write. -/
def collectFromParts : List GenPart → Option (List (String × String))
  | [] => some []
  | p :: rest => do
      let here ←
        match p.functionResponse with
        | none => some []
        | some fr => do
            let rj ← resultJson fr.response
            let rid := fr.id.getD ""
            some (if rid == "" then ([] : List (String × String)) else [(rid, rj)])
      let rest2 ← collectFromParts rest
      some (here ++ rest2)

def collectToolResults : List SessionEvent → Option (List (String × String))
  | [] => some []
  | ev :: rest => do
      let here ←
        match ev.content with
        | some c => if c.parts.isEmpty then some [] else collectFromParts c.parts
        | none => some []
      let rest2 ← collectToolResults rest
      some (here ++ rest2)

/-- pending_tool_results[id]: the last write with that id. -/
def lookupToolResult (writes : List (String × String)) (id : String) :
    Option String :=
  (writes.reverse.find? fun kv => kv.1 == id).map fun kv => kv.2

/-- Lines 466-496: the tagged text contributed by one part, and whether it
made the event displayable. A function_call part emits the tool tag and,
when a collected result matches its id, the tool-result tag right after;
a standalone function_response part contributes nothing. -/
def partContribution (results : List (String × String)) (p : GenPart) :
    Option (String × Bool) := do
  let t1 :=
    match p.text with
    | some t =>
        if t == "" then ""
        else if p.thought then THOUGHT_TAG_OPEN ++ t ++ THOUGHT_TAG_CLOSE
        else t
    | none => ""
  let d1 := optStringTruthy p.text
  match p.functionCall with
  | none => some (t1, d1)
  | some fc => do
      let argsJson ← resultJson fc.args
      let tname := fc.name.getD "unknown"
      let tid := fc.id.getD ""
      let callTxt := toolTagOpen tname tid ++ argsJson ++ TOOL_TAG_CLOSE
      let resTxt :=
        if tid == "" then ""
        else
          match lookupToolResult results tid with
          | some rj => toolResultTagOpen tid ++ rj ++ TOOL_RESULT_TAG_CLOSE
          | none => ""
      some (t1 ++ callTxt ++ resTxt, true)

/-- The combined text and displayability of one event (the part loop of
lines 463-496). -/
def buildEventText (results : List (String × String)) :
    List GenPart → Option (String × Bool)
  | [] => some ("", false)
  | p :: rest => do
      let (t, d) ← partContribution results p
      let (rt, rd) ← buildEventText results rest
      some (t ++ rt, d || rd)

/-- A user/assistant message pair grouped under one invocation id. -/
structure MsgGroup where
  user : Option HistMessage
  assistant : Option HistMessage
deriving DecidableEq

/-- The dict invocation_groups with its insertion order: an association
list appended to on first sight of an id (lines 457-460). -/
def ensureGroup (gs : List (String × MsgGroup)) (k : String) :
    List (String × MsgGroup) :=
  if (gs.find? fun kv => kv.1 == k).isSome then gs else gs ++ [(k, ⟨none, none⟩)]

def updateGroup (gs : List (String × MsgGroup)) (k : String)
    (f : MsgGroup → MsgGroup) : List (String × MsgGroup) :=
  gs.map fun kv => if kv.1 == k then (kv.1, f kv.2) else kv

/-- Lines 502-518: place the combined text of an event into its invocation
group, creating the message or appending to it. -/
def placeMessage (inv : String) (isUser : Bool) (combined : String)
    (ts : Option Int) (g : MsgGroup) : MsgGroup :=
  if isUser then
    match g.user with
    | none => { g with user := some ⟨"user", combined, ts, inv⟩ }
    | some msg =>
        { g with user := some ⟨msg.role, msg.content ++ combined, ts, msg.invocationId⟩ }
  else
    match g.assistant with
    | none => { g with assistant := some ⟨"model", combined, ts, inv⟩ }
    | some msg =>
        { g with assistant := some ⟨msg.role, msg.content ++ combined, ts, msg.invocationId⟩ }

/-- The second pass, lines 449-518: events in order; an event without
content parts is skipped before its group is created; an event whose
combined text is empty or not displayable still registers its invocation
in the order but adds no message. -/
def processEvents (results : List (String × String)) :
    List SessionEvent → List (String × MsgGroup) → Option (List (String × MsgGroup))
  | [], gs => some gs
  | ev :: rest, gs =>
      match ev.content with
      | none => processEvents results rest gs
      | some c =>
          if c.parts.isEmpty then processEvents results rest gs
          else do
            let inv :=
              match ev.invocationId with
              | some s => if s == "" then "unknown" else s
              | none => "unknown"
            let isUser := ev.author == "user"
            let gs1 := ensureGroup gs inv
            let (combined, disp) ← buildEventText results c.parts
            let gs2 :=
              if combined == "" || !disp then gs1
              else updateGroup gs1 inv (placeMessage inv isUser combined ev.timestamp)
            processEvents results rest gs2

/-- Lines 520-527: flatten the groups in insertion order, the user message
before the assistant message of each invocation. -/
def flattenGroups (gs : List (String × MsgGroup)) : List HistMessage :=
  (gs.map fun kv => kv.2.user.toList ++ kv.2.assistant.toList).flatten

/-- The message reconstruction of get_session, lines 428-527 of main.py:
none models the endpoint falling into its error reply when json.dumps
raises. -/
def getSessionMessages (events : List SessionEvent) : Option (List HistMessage) := do
  let results ← collectToolResults events
  let groups ← processEvents results events []
  some (flattenGroups groups)

/-! ## Concrete instances used by the claim theorems -/

/-- C1 counterexample fragments: two streamed messages within one run. The
second fragment (non-partial, turn-complete) closes the first message midway
through the run. -/
def c1CexFrags : List AdkEvent :=
  [⟨[⟨"A", false⟩], false, true, false, false⟩,
   ⟨[⟨"B", false⟩], false, false, true, false⟩,
   ⟨[⟨"C", false⟩], false, true, false, false⟩]

/-- The final-response fragment of the C1 counterexample: its text equals
the concatenation of the texts of all prior partial fragments. -/
def c1CexFinal : AdkEvent := ⟨[⟨"AC", false⟩], true, false, false, false⟩

/-- The partial fragments of the C1 witness scenario. -/
def c1WitPs : List AdkEvent :=
  [⟨[⟨"Hel", false⟩], false, true, false, false⟩,
   ⟨[⟨"lo", false⟩], false, true, true, false⟩]

/-- The duplicate final-response fragment of the C1 witness scenario. -/
def c1WitFin : AdkEvent := ⟨[⟨"Hello", false⟩], true, false, false, false⟩

/-- The streaming state of the C4 scenario: one partial fragment A has
been streamed. -/
def c4State : TranslatorState :=
  (runFragments initState [⟨[⟨"A", false⟩], false, true, false, false⟩] "r").2

/-- The C4 fragment: non-partial, not final, turn-complete, with fresh
text B. -/
def c4Frag : AdkEvent := ⟨[⟨"B", false⟩], false, false, true, false⟩

/-- The side-channel state of the C6 witness: one widget and one
well-formed query attempt. -/
def c6State : SessionState :=
  ⟨[JsonVal.obj [("id", JsonVal.str "w1")]],
   [JsonVal.obj [("success", JsonVal.bool true)]]⟩

/-- The response of the C6 witness: a single plain text part. -/
def c6Resp : LlmResponse := ⟨some ⟨[partFromText "Answer"]⟩, none⟩

/-- A side-channel state whose buffers hold an unserializable object, so
json.dumps raises in both callbacks. -/
def c6FailState : SessionState := ⟨[JsonVal.unserializable], [JsonVal.unserializable]⟩

/-- The attempts list of the C8 witness. -/
def c8Attempts : List JsonVal :=
  [JsonVal.obj [("query", JsonVal.str "q1"), ("success", JsonVal.bool true)]]

/-- The two widgets of the C8 witness. -/
def c8W1 : JsonVal := JsonVal.obj [("id", JsonVal.str "w1")]

def c8W2 : JsonVal := JsonVal.obj [("id", JsonVal.str "w2")]

/-- The grounding metadata of the C9 counterexample: one web source and
one search query. -/
def c9Meta : GroundingMetadata :=
  ⟨[⟨some ⟨some "T", some "U", some "D"⟩⟩], [], ["q"]⟩

/-- The response of the C9 counterexample. -/
def c9Resp : LlmResponse := ⟨some ⟨[partFromText "ans"]⟩, some c9Meta⟩

/-- A persisted event carrying one tool call (name search, id c1). -/
def c10Call : SessionEvent :=
  ⟨some ⟨[⟨none, false,
      some ⟨some "search", some "c1", some (JsonVal.obj [("q", JsonVal.str "x")])⟩,
      none⟩]⟩,
   some "i1", "agent", some 3⟩

/-- A persisted event carrying one tool result for call id c1. -/
def c10Result : SessionEvent :=
  ⟨some ⟨[⟨none, false, none,
      some ⟨some "c1", some (JsonVal.obj [("ok", JsonVal.bool true)])⟩⟩]⟩,
   some "i1", "agent", some 5⟩

/-! ## Helper lemmas -/

lemma concatStrings_append (xs ys : List String) :
    concatStrings (xs ++ ys) = concatStrings xs ++ concatStrings ys := by
  induction xs with
  | nil => simp [concatStrings]
  | cons a l ih => simp [concatStrings, ih, String.append_assoc]

lemma countStarts_nil : countStarts [] = 0 := rfl

lemma countStarts_cons_start (i : Nat) (rest : List AgEvent) :
    countStarts (AgEvent.textStart i :: rest) = countStarts rest + 1 := rfl

lemma countStarts_cons_content (i : Nat) (d : String) (rest : List AgEvent) :
    countStarts (AgEvent.textContent i d :: rest) = countStarts rest := rfl

lemma countStarts_cons_end (i : Nat) (rest : List AgEvent) :
    countStarts (AgEvent.textEnd i :: rest) = countStarts rest := rfl

lemma countEnds_nil : countEnds [] = 0 := rfl

lemma countEnds_cons_start (i : Nat) (rest : List AgEvent) :
    countEnds (AgEvent.textStart i :: rest) = countEnds rest := rfl

lemma countEnds_cons_content (i : Nat) (d : String) (rest : List AgEvent) :
    countEnds (AgEvent.textContent i d :: rest) = countEnds rest := rfl

lemma countEnds_cons_end (i : Nat) (rest : List AgEvent) :
    countEnds (AgEvent.textEnd i :: rest) = countEnds rest + 1 := rfl

lemma outputText_nil : outputText [] = "" := rfl

lemma outputText_cons_start (i : Nat) (rest : List AgEvent) :
    outputText (AgEvent.textStart i :: rest) = outputText rest := rfl

lemma outputText_cons_content (i : Nat) (d : String) (rest : List AgEvent) :
    outputText (AgEvent.textContent i d :: rest) = d ++ outputText rest := rfl

lemma outputText_cons_end (i : Nat) (rest : List AgEvent) :
    outputText (AgEvent.textEnd i :: rest) = outputText rest := rfl

lemma countStarts_append (xs ys : List AgEvent) :
    countStarts (xs ++ ys) = countStarts xs + countStarts ys := by
  simp [countStarts, List.filter_append]

lemma countEnds_append (xs ys : List AgEvent) :
    countEnds (xs ++ ys) = countEnds xs + countEnds ys := by
  simp [countEnds, List.filter_append]

lemma outputText_append (xs ys : List AgEvent) :
    outputText (xs ++ ys) = outputText xs ++ outputText ys := by
  simp [outputText, List.filterMap_append, concatStrings_append]

lemma checkFraming_append (o : Option Nat) (xs ys : List AgEvent) :
    checkFraming o (xs ++ ys)
      = match checkFraming o xs with
        | some o2 => checkFraming o2 ys
        | none => none := by
  induction xs generalizing o with
  | nil => simp [checkFraming]
  | cons ev rest ih =>
      simp only [List.cons_append, checkFraming]
      cases framingStep o ev with
      | none => rfl
      | some o2 => exact ih o2

lemma runFragments_cons (s : TranslatorState) (e : AdkEvent) (rest : List AdkEvent)
    (r : String) :
    runFragments s (e :: rest) r
      = ((translateTextContent s e r).events
            ++ (runFragments (translateTextContent s e r).state rest r).1,
         (runFragments (translateTextContent s e r).state rest r).2) := rfl

lemma runFragments_append (s : TranslatorState) (xs ys : List AdkEvent) (r : String) :
    runFragments s (xs ++ ys) r
      = ((runFragments s xs r).1 ++ (runFragments (runFragments s xs r).2 ys r).1,
         (runFragments (runFragments s xs r).2 ys r).2) := by
  induction xs generalizing s with
  | nil => simp [runFragments]
  | cons e rest ih =>
      simp [runFragments_cons, ih, List.append_assoc]

/-- A string with a non-empty right part of an append is non-empty. -/
lemma append_ne_empty_of_right (a b : String) (hb : b ≠ "") : a ++ b ≠ "" := by
  intro h
  apply hb
  have hd := congrArg String.data h
  rw [String.data_append] at hd
  rcases List.append_eq_nil.mp hd with ⟨-, h2⟩
  cases b
  simp_all

/-- One translator call preserves the streaming invariant and advances the
framing automaton from the open message before the call to the open message
after it, keeping the start and end counts balanced against the streaming
flag. -/
lemma step_framing (s : TranslatorState) (e : AdkEvent) (r : String)
    (h : s.streamingMessageId.isSome = s.isStreaming) :
    (translateTextContent s e r).state.streamingMessageId.isSome
        = (translateTextContent s e r).state.isStreaming ∧
    checkFraming s.streamingMessageId (translateTextContent s e r).events
        = some (translateTextContent s e r).state.streamingMessageId ∧
    countStarts (translateTextContent s e r).events
        + (if s.isStreaming then 1 else 0)
      = countEnds (translateTextContent s e r).events
        + (if (translateTextContent s e r).state.isStreaming then 1 else 0) := by
  rcases Bool.eq_false_or_eq_true s.isStreaming with hs | hs
  · -- streaming before the call
    obtain ⟨mid, hmid⟩ := Option.isSome_iff_exists.mp
      (show s.streamingMessageId.isSome = true by rw [h, hs])
    rcases Bool.eq_false_or_eq_true e.isFinalResponse with hfin | hfin <;>
      rcases Bool.eq_false_or_eq_true (combinedText e.parts == "") with hemp | hemp <;>
      rcases Bool.eq_false_or_eq_true
        (s.lastStreamedRunId == some r && optStringTruthy s.lastStreamedText)
        with hded | hded <;>
      rcases Bool.eq_false_or_eq_true (shouldSendEnd e true) with hsse | hsse <;>
      rcases Bool.eq_false_or_eq_true e.isPartial with hp | hp <;>
      simp [translateTextContent, streamPhase, startPhase, contentPhase,
        closeStream, clearDedup, checkFraming, framingStep, countStarts, countEnds,
        isStartEv, isEndEv, List.filter_cons, List.filter_nil,
        hs, hfin, hemp, hded, hp, hmid, hsse]
  · -- idle before the call
    have hid : s.streamingMessageId = none := by
      rw [hs] at h
      exact Option.not_isSome_iff_eq_none.mp (by simp [h])
    rcases Bool.eq_false_or_eq_true e.isFinalResponse with hfin | hfin <;>
      rcases Bool.eq_false_or_eq_true (combinedText e.parts == "") with hemp | hemp <;>
      rcases Bool.eq_false_or_eq_true
        (s.lastStreamedRunId == some r && optStringTruthy s.lastStreamedText)
        with hded | hded <;>
      rcases Bool.eq_false_or_eq_true (shouldSendEnd e false) with hsse | hsse <;>
      simp [translateTextContent, streamPhase, startPhase, contentPhase,
        closeStream, clearDedup, checkFraming, framingStep, countStarts, countEnds,
        isStartEv, isEndEv, List.filter_cons, List.filter_nil,
        hs, hfin, hemp, hded, hid, hsse]

/-- The framing invariant over a whole fragment sequence. -/
lemma run_framing (es : List AdkEvent) (r : String) :
    ∀ s : TranslatorState, s.streamingMessageId.isSome = s.isStreaming →
    (runFragments s es r).2.streamingMessageId.isSome
        = (runFragments s es r).2.isStreaming ∧
    checkFraming s.streamingMessageId (runFragments s es r).1
        = some (runFragments s es r).2.streamingMessageId ∧
    countStarts (runFragments s es r).1 + (if s.isStreaming then 1 else 0)
      = countEnds (runFragments s es r).1
        + (if (runFragments s es r).2.isStreaming then 1 else 0) := by
  induction es with
  | nil =>
      intro s h
      simp [runFragments, checkFraming, h, countStarts, countEnds]
  | cons e rest ih =>
      intro s h
      obtain ⟨h1, h2, h3⟩ := step_framing s e r h
      obtain ⟨g1, g2, g3⟩ := ih (translateTextContent s e r).state h1
      refine ⟨g1, ?_, ?_⟩
      · rw [runFragments_cons]
        simp only [checkFraming_append, h2]
        exact g2
      · rw [runFragments_cons]
        simp only [countStarts_append, countEnds_append]
        omega

/-- A plain streamed chunk: partial, not a final response, no finish
reason (turn_complete is unconstrained, since a partial fragment never
triggers the end condition through it). -/
def plainPartial (e : AdkEvent) : Bool :=
  e.isPartial && !e.isFinalResponse && !e.hasFinishReason

lemma plainPartial_flags (e : AdkEvent) (he : plainPartial e = true) :
    e.isPartial = true ∧ e.isFinalResponse = false ∧ e.hasFinishReason = false := by
  have h := he
  simp only [plainPartial, Bool.and_eq_true, Bool.not_eq_true'] at h
  exact ⟨h.1.1, h.1.2, h.2⟩

/-- A plain partial fragment processed while streaming: the delta is
emitted (or nothing, when its text is empty) and the stream stays open. -/
lemma step_partial_streaming (s : TranslatorState) (e : AdkEvent) (r : String)
    (hs : s.isStreaming = true) (he : plainPartial e = true) :
    translateTextContent s e r
      = if combinedText e.parts == "" then ⟨[], s⟩
        else ⟨[AgEvent.textContent (s.streamingMessageId.getD 0) (combinedText e.parts)],
              { s with currentStreamText := s.currentStreamText ++ combinedText e.parts }⟩ := by
  obtain ⟨hp, hfin, hfr⟩ := plainPartial_flags e he
  rcases Bool.eq_false_or_eq_true (combinedText e.parts == "") with hemp | hemp <;>
    simp [translateTextContent, streamPhase, startPhase, contentPhase, shouldSendEnd,
      hs, hp, hfin, hfr, hemp]

/-- A plain partial fragment processed while idle: nothing happens on empty
text; otherwise a fresh message starts and the delta is emitted. -/
lemma step_partial_idle (s : TranslatorState) (e : AdkEvent) (r : String)
    (hs : s.isStreaming = false) (he : plainPartial e = true) :
    translateTextContent s e r
      = if combinedText e.parts == "" then ⟨[], s⟩
        else ⟨[AgEvent.textStart s.nextId,
               AgEvent.textContent s.nextId (combinedText e.parts)],
              { s with isStreaming := true, streamingMessageId := some s.nextId,
                       currentStreamText := combinedText e.parts,
                       nextId := s.nextId + 1 }⟩ := by
  obtain ⟨hp, hfin, hfr⟩ := plainPartial_flags e he
  rcases Bool.eq_false_or_eq_true (combinedText e.parts == "") with hemp | hemp <;>
    simp [translateTextContent, streamPhase, startPhase, contentPhase, shouldSendEnd,
      hs, hp, hfin, hfr, hemp, String.empty_append]

/-- Plain partial fragments while streaming: only content deltas are
emitted, in fragment order, and the stream and its id survive. -/
lemma run_partial_streaming (es : List AdkEvent) (r : String) :
    ∀ s : TranslatorState, s.isStreaming = true →
    (∀ e ∈ es, plainPartial e = true) →
    countStarts (runFragments s es r).1 = 0 ∧
    countEnds (runFragments s es r).1 = 0 ∧
    outputText (runFragments s es r).1
      = concatStrings (es.map fun e => combinedText e.parts) ∧
    (runFragments s es r).2.isStreaming = true ∧
    (runFragments s es r).2.streamingMessageId = s.streamingMessageId := by
  induction es with
  | nil =>
      intro s hs _
      simp [runFragments, countStarts, countEnds, outputText, concatStrings, hs]
  | cons e rest ih =>
      intro s hs hall
      have he := hall e (List.mem_cons_self ..)
      have hrest := fun x hx => hall x (List.mem_cons_of_mem _ hx)
      rw [runFragments_cons, step_partial_streaming s e r hs he]
      rcases Bool.eq_false_or_eq_true (combinedText e.parts == "") with hemp | hemp
      · rw [if_pos hemp]
        obtain ⟨a1, a2, a3, a4, a5⟩ := ih s hs hrest
        have hce : combinedText e.parts = "" := by simpa using hemp
        refine ⟨by simpa using a1, by simpa using a2, ?_, by simpa using a4,
          by simpa using a5⟩
        simp [a3, hce, concatStrings, String.empty_append]
      · rw [if_neg (by simp [hemp])]
        obtain ⟨a1, a2, a3, a4, a5⟩ :=
          ih { s with currentStreamText := s.currentStreamText ++ combinedText e.parts }
            hs hrest
        refine ⟨?_, ?_, ?_, by simpa using a4, by simpa using a5⟩
        · simpa [countStarts_append, countStarts_cons_content, countStarts_nil]
            using a1
        · simpa [countEnds_append, countEnds_cons_content, countEnds_nil] using a2
        · simp [outputText_append, outputText_cons_content, outputText_nil,
            List.map_cons, concatStrings, a3, String.append_assoc, String.append_empty]

/-- Plain partial fragments from the idle state: no end is ever emitted,
exactly one start appears once some fragment carries text, and the output
is the concatenation of the fragment texts. -/
lemma run_partial_idle (es : List AdkEvent) (r : String) :
    ∀ s : TranslatorState, s.isStreaming = false →
    (∀ e ∈ es, plainPartial e = true) →
    countStarts (runFragments s es r).1
      = (if es.all (fun e => combinedText e.parts == "") then 0 else 1) ∧
    countEnds (runFragments s es r).1 = 0 ∧
    outputText (runFragments s es r).1
      = concatStrings (es.map fun e => combinedText e.parts) ∧
    (runFragments s es r).2.isStreaming
      = !(es.all fun e => combinedText e.parts == "") := by
  induction es with
  | nil =>
      intro s hs _
      simp [runFragments, countStarts, countEnds, outputText, concatStrings, hs]
  | cons e rest ih =>
      intro s hs hall
      have he := hall e (List.mem_cons_self ..)
      have hrest := fun x hx => hall x (List.mem_cons_of_mem _ hx)
      rw [runFragments_cons, step_partial_idle s e r hs he]
      rcases Bool.eq_false_or_eq_true (combinedText e.parts == "") with hemp | hemp
      · rw [if_pos hemp]
        obtain ⟨a1, a2, a3, a4⟩ := ih s hs hrest
        have hce : combinedText e.parts = "" := by simpa using hemp
        refine ⟨?_, by simpa using a2, ?_, ?_⟩
        · simp [a1, List.all_cons, hemp]
        · simp [a3, hce, concatStrings, String.empty_append]
        · simp [a4, List.all_cons, hemp]
      · rw [if_neg (by simp [hemp])]
        obtain ⟨a1, a2, a3, a4, a5⟩ :=
          run_partial_streaming rest r
            { s with isStreaming := true, streamingMessageId := some s.nextId,
                     currentStreamText := combinedText e.parts,
                     nextId := s.nextId + 1 } rfl hrest
        refine ⟨?_, ?_, ?_, ?_⟩
        · simp [countStarts_append, countStarts_cons_start, countStarts_cons_content,
            countStarts_nil, a1, List.all_cons, hemp]
        · simpa [countEnds_append, countEnds_cons_start, countEnds_cons_content,
            countEnds_nil] using a2
        · simp [outputText_append, outputText_cons_start, outputText_cons_content,
            outputText_nil, List.map_cons, concatStrings, a3, String.append_assoc,
            String.append_empty]
        · simp [a4, List.all_cons, hemp]

/-! ## C1 -/

/-- C1 counterexample: a run in which the final-response fragment text
equals the concatenation of all prior partial fragment texts, yet the run
emits two end-of-message markers, not exactly one: the mid-run
turn-complete fragment already closed a first message. -/
theorem c1_counterexample :
    combinedText c1CexFinal.parts
      = concatStrings (c1CexFrags.filterMap fun e =>
          if e.isPartial then some (combinedText e.parts) else none) ∧
    countEnds (runFragments initState (c1CexFrags ++ [c1CexFinal]) "r").1 = 2 ∧
    (2 : Nat) ≠ 1 := by decide

/-- C1 (amended): for a run of plain partial fragments (no finish reason,
not final), at least one with text, followed by one final-response
fragment whose text equals the concatenation of the partial texts, the
accumulator emits exactly one end-of-message marker, no content marker is
derived from the final fragment, and the output text is the final
fragment text (delivered through the partials). -/
theorem c1_single_message_dedup (ps : List AdkEvent) (fin : AdkEvent) (r : String)
    (hall : ∀ e ∈ ps, plainPartial e = true)
    (hne : ∃ e ∈ ps, combinedText e.parts ≠ "")
    (hfin : fin.isFinalResponse = true)
    (heq : combinedText fin.parts
        = concatStrings (ps.map fun e => combinedText e.parts)) :
    countEnds (runFragments initState (ps ++ [fin]) r).1 = 1 ∧
    (translateTextContent (runFragments initState ps r).2 fin r).events.filter
        isContentEv = [] ∧
    outputText (runFragments initState (ps ++ [fin]) r).1
      = combinedText fin.parts := by
  obtain ⟨a1, a2, a3, a4⟩ := run_partial_idle ps r initState rfl hall
  have hallb : (ps.all fun e => combinedText e.parts == "") = false := by
    rcases Bool.eq_false_or_eq_true (ps.all fun e => combinedText e.parts == "")
      with h | h
    · obtain ⟨e, he, hnee⟩ := hne
      have := List.all_eq_true.mp h e he
      exact absurd (by simpa using this) hnee
    · exact h
  have hstr : (runFragments initState ps r).2.isStreaming = true := by
    rw [a4, hallb]; rfl
  have hsome : (runFragments initState ps r).2.streamingMessageId.isSome = true := by
    rw [(run_framing ps r initState rfl).1, hstr]
  have hstep : translateTextContent (runFragments initState ps r).2 fin r
      = closeStream (runFragments initState ps r).2 r := by
    simp [translateTextContent, hfin, hstr, hsome]
  refine ⟨?_, ?_, ?_⟩
  · rw [runFragments_append]
    rw [countEnds_append]
    have : (runFragments (runFragments initState ps r).2 [fin] r).1
        = (closeStream (runFragments initState ps r).2 r).events ++ [] := by
      rw [runFragments_cons, hstep]; rfl
    rw [this, a2]
    simp [closeStream, countEnds_cons_end, countEnds_nil]
  · rw [hstep]
    simp [closeStream, List.filter_cons, List.filter_nil, isContentEv]
  · rw [runFragments_append, outputText_append]
    have : (runFragments (runFragments initState ps r).2 [fin] r).1
        = (closeStream (runFragments initState ps r).2 r).events ++ [] := by
      rw [runFragments_cons, hstep]; rfl
    rw [this, a3, heq]
    simp [closeStream, outputText_cons_end, outputText_nil, String.append_empty]

/-- C1 witness: the scenario of the claim (partials Hel, lo then a final
Hello) satisfies the hypotheses, and the run emits exactly one end, no
content from the final fragment, and the output text Hello. -/
theorem c1_witness :
    ((∀ e ∈ c1WitPs, plainPartial e = true) ∧
     (∃ e ∈ c1WitPs, combinedText e.parts ≠ "") ∧
     c1WitFin.isFinalResponse = true ∧
     combinedText c1WitFin.parts
        = concatStrings (c1WitPs.map fun e => combinedText e.parts)) ∧
    (countEnds (runFragments initState (c1WitPs ++ [c1WitFin]) "r").1 = 1 ∧
     (translateTextContent (runFragments initState c1WitPs "r").2 c1WitFin "r").events.filter
        isContentEv = [] ∧
     outputText (runFragments initState (c1WitPs ++ [c1WitFin]) "r").1
        = combinedText c1WitFin.parts) :=
  ⟨⟨by decide, by decide, by decide, by decide⟩,
   c1_single_message_dedup c1WitPs c1WitFin "r" (by decide) (by decide)
     (by decide) (by decide)⟩

/-! ## C2 -/

/-- C2 counterexample: a run consisting of a single partial fragment emits
one start-of-message marker and zero end-of-message markers, so the number
of starts does not equal the number of ends for that processed sequence. -/
theorem c2_counterexample :
    countStarts (runFragments initState
      [⟨[⟨"Hel", false⟩], false, true, false, false⟩] "r").1 = 1 ∧
    countEnds (runFragments initState
      [⟨[⟨"Hel", false⟩], false, true, false, false⟩] "r").1 = 0 ∧
    (1 : Nat) ≠ 0 := by decide

/-- C2 (amended): for every fragment sequence of one run, the emitted
framing events pass the framing automaton (starts and ends strictly
alternate with matching message ids, content only inside an open message,
the open message after the sequence being the streaming state message);
and the number of starts equals the number of ends plus one exactly when a
message is still open, so starts equal ends whenever the accumulator ended
idle. -/
theorem c2_framing_alternation (es : List AdkEvent) (r : String) :
    checkFraming none (runFragments initState es r).1
      = some (runFragments initState es r).2.streamingMessageId ∧
    countStarts (runFragments initState es r).1
      = countEnds (runFragments initState es r).1
        + (if (runFragments initState es r).2.isStreaming then 1 else 0) := by
  obtain ⟨h1, h2, h3⟩ := run_framing es r initState rfl
  exact ⟨h2, by simpa [initState] using h3⟩

/-! ## C3 -/

/-- C3 counterexample: processing the two fragments of the scenario (a
thought fragment, then a non-partial final-response answer fragment) from a
fresh run discards the answer: the final stream text is only the tagged
thought, not the tagged thought followed by the answer. -/
theorem c3_counterexample :
    outputText (runFragments initState
      [⟨[⟨"considering X", true⟩], false, false, false, false⟩,
       ⟨[⟨"The answer is 42", false⟩], true, false, false, false⟩] "r").1
      = "<llm:adk:soch>considering X</llm:adk:soch>" ∧
    ("<llm:adk:soch>considering X</llm:adk:soch>" : String)
      ≠ "<llm:adk:soch>considering X</llm:adk:soch>The answer is 42" := by decide

/-- C3 (amended): the scenario text is produced when the thought part and
the answer part arrive inside a single non-partial final-response fragment
of a fresh run: the stream is exactly one start, one content delta
carrying the tagged thought followed by the answer, and one end. -/
theorem c3_single_fragment_scenario :
    runFragments initState
      [⟨[⟨"considering X", true⟩, ⟨"The answer is 42", false⟩],
        true, false, false, false⟩] "r"
      = ([AgEvent.textStart 0,
          AgEvent.textContent 0
            "<llm:adk:soch>considering X</llm:adk:soch>The answer is 42",
          AgEvent.textEnd 0],
         ⟨false, none, "",
          some "<llm:adk:soch>considering X</llm:adk:soch>The answer is 42",
          some "r", 1⟩) := by decide

/-! ## C4 -/

/-- C4 counterexample: a non-partial, non-final fragment with fresh text B
arriving mid-stream emits no content event, but the accumulated text does
not stay unchanged: the fragment also triggers the end transition, which
resets the accumulated text from A to empty. -/
theorem c4_counterexample :
    c4State.isStreaming = true ∧
    c4State.currentStreamText = "A" ∧
    c4Frag.isFinalResponse = false ∧
    c4Frag.isPartial = false ∧
    combinedText c4Frag.parts ≠ "" ∧
    (translateTextContent c4State c4Frag "r").events.filter isContentEv = [] ∧
    (translateTextContent c4State c4Frag "r").state.currentStreamText
      ≠ c4State.currentStreamText := by decide

/-- C4 (amended): a non-final fragment with non-empty text processed as
non-partial while a stream is active never yields a content event — the
skip does not compare content, so genuinely new non-partial text is
dropped — and the accumulated text is unchanged unless the same fragment
triggers the end transition, which resets it to empty. -/
theorem c4_consolidated_skip (s : TranslatorState) (e : AdkEvent) (r : String)
    (hs : s.isStreaming = true)
    (hfin : e.isFinalResponse = false)
    (hne : combinedText e.parts ≠ "")
    (hp : e.isPartial = false) :
    (translateTextContent s e r).events.filter isContentEv = [] ∧
    (translateTextContent s e r).state.currentStreamText
      = (if shouldSendEnd e true = true then "" else s.currentStreamText) := by
  have hemp : (combinedText e.parts == "") = false := beq_eq_false_iff_ne.mpr hne
  rcases Bool.eq_false_or_eq_true (shouldSendEnd e true) with hsse | hsse <;>
    simp [translateTextContent, streamPhase, startPhase, contentPhase, closeStream,
      hs, hfin, hemp, hp, hsse, List.filter_cons, List.filter_nil, isContentEv,
      isEndEv, isStartEv]

/-- C4 witness: the concrete mid-stream consolidated fragment B satisfies
the hypotheses and is dropped while the end transition resets the
accumulated text. -/
theorem c4_witness :
    (c4State.isStreaming = true ∧
     c4Frag.isFinalResponse = false ∧
     combinedText c4Frag.parts ≠ "" ∧
     c4Frag.isPartial = false) ∧
    ((translateTextContent c4State c4Frag "r").events.filter isContentEv = [] ∧
     (translateTextContent c4State c4Frag "r").state.currentStreamText
       = (if shouldSendEnd c4Frag true = true then "" else c4State.currentStreamText)) :=
  ⟨⟨by decide, by decide, by decide, by decide⟩,
   c4_consolidated_skip c4State c4Frag "r" (by decide) (by decide) (by decide)
     (by decide)⟩

/-! ## C5 -/

/-- C5 counterexample: a turn-complete non-partial fragment (not a final
response) starts and ends a message; the code records the dedup markers
(lastStreamedText A, the run id) although the trigger was not a
final-response fragment, where the claim says they are not recorded. -/
theorem c5_counterexample :
    (⟨[⟨"A", false⟩], false, false, true, false⟩ : AdkEvent).isFinalResponse
        = false ∧
    (translateTextContent initState
        ⟨[⟨"A", false⟩], false, false, true, false⟩ "r").events
      = [AgEvent.textStart 0, AgEvent.textContent 0 "A", AgEvent.textEnd 0] ∧
    (translateTextContent initState
        ⟨[⟨"A", false⟩], false, false, true, false⟩ "r").state.lastStreamedText
      = some "A" ∧
    some "A" ≠ (none : Option String) := by decide

/-- C5 (amended): on every transition that emits an end-of-message event
(from a state satisfying the streaming invariants: an id exactly while
streaming, a non-empty accumulated text while streaming and an empty one
while idle — all preserved by every call from the fresh state), the
translator records lastStreamedText equal to the accumulated text of the
closing message — the text accumulated before this call followed by the
content deltas this call emitted, a non-empty string — and
lastStreamedRunId equal to the run id, regardless of whether the trigger
was a final-response fragment; and in all cases the accumulated text is
reset and the active message id is cleared. -/
theorem c5_end_transition_records (s : TranslatorState) (e : AdkEvent) (r : String)
    (hidinv : s.streamingMessageId.isSome = s.isStreaming)
    (hcurinv : s.isStreaming = true → s.currentStreamText ≠ "")
    (hcuridle : s.isStreaming = false → s.currentStreamText = "")
    (hend : (translateTextContent s e r).events.filter isEndEv ≠ []) :
    (translateTextContent s e r).state.lastStreamedText
      = some (s.currentStreamText ++ outputText (translateTextContent s e r).events) ∧
    optStringTruthy (translateTextContent s e r).state.lastStreamedText = true ∧
    (translateTextContent s e r).state.lastStreamedRunId = some r ∧
    (translateTextContent s e r).state.currentStreamText = "" ∧
    (translateTextContent s e r).state.streamingMessageId = none ∧
    (translateTextContent s e r).state.isStreaming = false := by
  rcases Bool.eq_false_or_eq_true s.isStreaming with hs | hs
  · -- streaming before the call
    obtain ⟨mid, hmid⟩ := Option.isSome_iff_exists.mp (by rw [hidinv, hs])
    have hcur : s.currentStreamText ≠ "" := hcurinv hs
    have hcmp : (s.currentStreamText == "") = false := beq_eq_false_iff_ne.mpr hcur
    rcases Bool.eq_false_or_eq_true e.isFinalResponse with hfin | hfin
    · -- final response while streaming: closeStream records and resets
      simp [translateTextContent, closeStream, hs, hfin, hmid, hcmp, optStringTruthy,
        outputText_cons_end, outputText_nil, String.append_empty]
    · rcases Bool.eq_false_or_eq_true (combinedText e.parts == "") with hemp | hemp
      · exfalso; apply hend
        simp [translateTextContent, hemp, hfin]
      · have hne : combinedText e.parts ≠ "" := beq_eq_false_iff_ne.mp hemp
        have happ : ((s.currentStreamText ++ combinedText e.parts) == "") = false :=
          beq_eq_false_iff_ne.mpr (append_ne_empty_of_right _ _ hne)
        rcases Bool.eq_false_or_eq_true (shouldSendEnd e true) with hsse | hsse
        · rcases Bool.eq_false_or_eq_true e.isPartial with hp | hp <;>
            simp [translateTextContent, streamPhase, startPhase, contentPhase,
              closeStream, hs, hfin, hemp, hsse, hp, hcmp, happ, hmid, optStringTruthy,
              outputText_cons_content, outputText_cons_end, outputText_nil,
              String.append_empty]
        · exfalso; apply hend
          rcases Bool.eq_false_or_eq_true e.isPartial with hp | hp <;>
            simp [translateTextContent, streamPhase, startPhase, contentPhase,
              hs, hfin, hemp, hsse, hp, List.filter_cons, List.filter_nil,
              isEndEv]
  · -- idle before the call
    have hid : s.streamingMessageId = none := by
      rw [hs] at hidinv
      exact Option.not_isSome_iff_eq_none.mp (by simp [hidinv])
    have hcur0 : s.currentStreamText = "" := hcuridle hs
    rcases Bool.eq_false_or_eq_true e.isFinalResponse with hfin | hfin
    · rcases Bool.eq_false_or_eq_true
        (s.lastStreamedRunId == some r && optStringTruthy s.lastStreamedText)
        with hded | hded
      · exfalso; apply hend
        simp [translateTextContent, hs, hfin, hid, hded]
      · have hdedp : ¬(s.lastStreamedRunId = some r
            ∧ optStringTruthy s.lastStreamedText = true) := by
          rintro ⟨h1, h2⟩
          simp [h1, h2] at hded
        rcases Bool.eq_false_or_eq_true (combinedText e.parts == "") with hemp | hemp
        · exfalso; apply hend
          simp [translateTextContent, hs, hfin, hid, hded, hemp]
        · rcases Bool.eq_false_or_eq_true (shouldSendEnd e false) with hsse | hsse
          · refine ⟨?_, ?_, ?_, ?_, ?_, ?_⟩ <;>
              · simp [translateTextContent, streamPhase, startPhase, contentPhase,
                  closeStream, hs, hfin, hid, hcur0, hdedp, hemp, hsse,
                  String.empty_append, outputText_cons_start,
                  outputText_cons_content, outputText_cons_end, outputText_nil,
                  String.append_empty]
                try simp [optStringTruthy, hemp]
          · exfalso; apply hend
            simp [translateTextContent, streamPhase, startPhase, contentPhase,
              hs, hfin, hid, hdedp, hemp, hsse, List.filter_cons,
              List.filter_nil, isEndEv]
    · rcases Bool.eq_false_or_eq_true (combinedText e.parts == "") with hemp | hemp
      · exfalso; apply hend
        simp [translateTextContent, hs, hfin, hemp]
      · rcases Bool.eq_false_or_eq_true (shouldSendEnd e false) with hsse | hsse
        · simp [translateTextContent, streamPhase, startPhase, contentPhase,
            closeStream, hs, hfin, hid, hcur0, hemp, hsse, String.empty_append,
            optStringTruthy, outputText_cons_start, outputText_cons_content,
            outputText_cons_end, outputText_nil, String.append_empty]
        · exfalso; apply hend
          simp [translateTextContent, streamPhase, startPhase, contentPhase,
            hs, hfin, hemp, hsse, List.filter_cons, List.filter_nil, isEndEv]

/-- C5 witness: the fresh-run turn-complete fragment A satisfies the
hypotheses (an end is emitted), and lastStreamedText is recorded as
exactly the accumulated text of the closed message while the stream state
resets. -/
theorem c5_witness :
    (initState.streamingMessageId.isSome = initState.isStreaming ∧
     (initState.isStreaming = true → initState.currentStreamText ≠ "") ∧
     (initState.isStreaming = false → initState.currentStreamText = "") ∧
     (translateTextContent initState c4Frag "r").events.filter isEndEv ≠ []) ∧
    ((translateTextContent initState c4Frag "r").state.lastStreamedText
        = some (initState.currentStreamText
            ++ outputText (translateTextContent initState c4Frag "r").events) ∧
     optStringTruthy (translateTextContent initState c4Frag "r").state.lastStreamedText
        = true ∧
     (translateTextContent initState c4Frag "r").state.lastStreamedRunId = some "r" ∧
     (translateTextContent initState c4Frag "r").state.currentStreamText = "" ∧
     (translateTextContent initState c4Frag "r").state.streamingMessageId = none ∧
     (translateTextContent initState c4Frag "r").state.isStreaming = false) :=
  ⟨⟨by decide, by decide, by decide, by decide⟩,
   c5_end_transition_records initState c4Frag "r" (by decide) (by decide)
     (by decide) (by decide)⟩

/-! ## C6 -/

/-- C6: for each side channel of the data analyst (pending widgets, query
attempts): a call that reports a modification has cleared that channel
buffer, so a second call on the resulting state is a no-op returning the
no-change signal; and a serialization failure (json.dumps raising) leaves
the state and the response untouched while returning the no-change signal
— the raise is caught inside the callback, never propagated. -/
theorem c6_side_channel_contract (st : SessionState) (resp : LlmResponse) :
    (∀ r1 st1 rm, capture_widgets st resp = ⟨some r1, st1, rm⟩ →
        st1.pendingWidgets = [] ∧
        ∀ resp2, capture_widgets st1 resp2 = ⟨none, st1, resp2⟩) ∧
    (widgetTags st.pendingWidgets = none →
        capture_widgets st resp = ⟨none, st, resp⟩) ∧
    (∀ r1 st1 rm, capture_query_attempts st resp = ⟨some r1, st1, rm⟩ →
        st1.queryAttempts = [] ∧
        ∀ resp2, capture_query_attempts st1 resp2 = ⟨none, st1, resp2⟩) ∧
    (dumps (JsonVal.obj [("attempts", JsonVal.arr st.queryAttempts)]) = none →
        capture_query_attempts st resp = ⟨none, st, resp⟩) := by
  refine ⟨?_, ?_, ?_, ?_⟩
  · intro r1 st1 rm heq
    by_cases hw : st.pendingWidgets.isEmpty
    · simp [capture_widgets, hw] at heq
    · rcases hwt : widgetTags st.pendingWidgets with _ | tags
      · simp [capture_widgets, hw, hwt] at heq
      · by_cases hok :
          (append_tag_to_response resp (joinSep "\n" tags)).ok = true
        · simp only [capture_widgets, hw, hwt, if_neg, Bool.false_eq_true,
            not_false_iff, hok, if_true, if_pos] at heq
          have hst1 : st1 = { st with pendingWidgets := [] } := by
            cases heq
            rfl
          subst hst1
          exact ⟨rfl, fun resp2 => by simp [capture_widgets]⟩
        · simp [capture_widgets, hw, hwt, hok] at heq
  · intro hwt
    by_cases hw : st.pendingWidgets.isEmpty
    · simp [capture_widgets, hw]
    · simp [capture_widgets, hw, hwt]
  · intro r1 st1 rm heq
    by_cases ha : st.queryAttempts.isEmpty
    · simp [capture_query_attempts, ha] at heq
    · rcases hq : dumps (JsonVal.obj [("attempts", JsonVal.arr st.queryAttempts)])
        with _ | qj
      · simp [capture_query_attempts, ha, hq] at heq
      · by_cases hok :
          (append_tag_to_response resp
            (QUERIES_TAG_OPEN ++ qj ++ QUERIES_TAG_CLOSE)).ok = true
        · rcases hc : countSuccesses st.queryAttempts with _ | n
          · simp [capture_query_attempts, ha, hq, hok, hc] at heq
          · simp only [capture_query_attempts, ha, hq, hok, hc, if_neg,
              Bool.false_eq_true, not_false_iff, if_true, if_pos] at heq
            have hst1 : st1 = { st with queryAttempts := [] } := by
              cases heq
              rfl
            subst hst1
            exact ⟨rfl, fun resp2 => by simp [capture_query_attempts]⟩
        · simp [capture_query_attempts, ha, hq, hok] at heq
  · intro hq
    by_cases ha : st.queryAttempts.isEmpty
    · simp [capture_query_attempts, ha]
    · simp [capture_query_attempts, ha, hq]

/-- C6 witness: on concrete inputs the first widget call clears the buffer
and the second call is a no-op; a serialization failure leaves the state
and response untouched for both channels. -/
theorem c6_witness :
    ((capture_widgets c6State c6Resp).state.pendingWidgets = [] ∧
     ∀ resp2, capture_widgets (capture_widgets c6State c6Resp).state resp2
        = ⟨none, (capture_widgets c6State c6Resp).state, resp2⟩) ∧
    capture_widgets c6FailState c6Resp = ⟨none, c6FailState, c6Resp⟩ ∧
    ((capture_query_attempts c6State c6Resp).state.queryAttempts = [] ∧
     ∀ resp2, capture_query_attempts (capture_query_attempts c6State c6Resp).state resp2
        = ⟨none, (capture_query_attempts c6State c6Resp).state, resp2⟩) ∧
    capture_query_attempts c6FailState c6Resp = ⟨none, c6FailState, c6Resp⟩ :=
  ⟨(c6_side_channel_contract c6State c6Resp).1 _ _ _ rfl,
   (c6_side_channel_contract c6FailState c6Resp).2.1 rfl,
   (c6_side_channel_contract c6State c6Resp).2.2.1 _ _ _ rfl,
   (c6_side_channel_contract c6FailState c6Resp).2.2.2 rfl⟩

/-! ## C7 -/

lemma appendToLast_of_none (tag : String) :
    ∀ parts, lastEligibleIdx parts = none → appendToLast tag parts = none := by
  intro parts
  induction parts with
  | nil => intro _; rfl
  | cons p rest ih =>
      intro h
      rcases hr : lastEligibleIdx rest with _ | i
      · rw [lastEligibleIdx, hr] at h
        by_cases hp : eligiblePart p = true
        · rw [if_pos hp] at h; cases h
        · simp only [appendToLast, ih hr]
          rw [if_neg hp]
      · rw [lastEligibleIdx, hr] at h
        cases h

lemma appendToLast_of_some (tag : String) :
    ∀ parts k p, lastEligibleIdx parts = some k → parts.get? k = some p →
      appendToLast tag parts
        = some (parts.set k ⟨some (p.text.getD "" ++ "\n" ++ tag), p.thought,
            p.functionCall, p.functionResponse⟩) := by
  intro parts
  induction parts with
  | nil => intro k p h _; cases h
  | cons q rest ih =>
      intro k p h hg
      rcases hr : lastEligibleIdx rest with _ | i
      · rw [lastEligibleIdx, hr] at h
        by_cases hp : eligiblePart q = true
        · rw [if_pos hp] at h
          cases h
          cases hg
          simp only [appendToLast, appendToLast_of_none tag rest hr]
          rw [if_pos hp]
          rfl
        · rw [if_neg hp] at h; cases h
      · rw [lastEligibleIdx, hr] at h
        cases h
        have hg2 : rest.get? i = some p := hg
        simp only [appendToLast, ih i p hr hg2]
        rfl

/-- C7 (amended): append_tag_to_response never touches any text other than
the tagged suffix — when an eligible (non-thought, truthy-text) part
exists, the tag is appended to the last such part after a newline, all
other parts unchanged, and True is returned; when the parts list is
non-empty but holds no eligible part, a fresh text part holding only the
tag is appended and True is returned; but when the response has no content
or an empty parts list, the function returns False and creates nothing. -/
theorem c7_append_tag_spec (c : GenContent) (gm : Option GroundingMetadata)
    (tag : String) :
    (append_tag_to_response ⟨none, gm⟩ tag = ⟨⟨none, gm⟩, false⟩) ∧
    (c.parts = [] → append_tag_to_response ⟨some c, gm⟩ tag = ⟨⟨some c, gm⟩, false⟩) ∧
    (c.parts ≠ [] → lastEligibleIdx c.parts = none →
      append_tag_to_response ⟨some c, gm⟩ tag
        = ⟨⟨some ⟨c.parts ++ [partFromText tag]⟩, gm⟩, true⟩) ∧
    (∀ k p, lastEligibleIdx c.parts = some k → c.parts.get? k = some p →
      append_tag_to_response ⟨some c, gm⟩ tag
        = ⟨⟨some ⟨c.parts.set k ⟨some (p.text.getD "" ++ "\n" ++ tag), p.thought,
              p.functionCall, p.functionResponse⟩⟩, gm⟩, true⟩ ∧
      ∀ j, j ≠ k →
        (c.parts.set k ⟨some (p.text.getD "" ++ "\n" ++ tag), p.thought,
          p.functionCall, p.functionResponse⟩).get? j = c.parts.get? j) := by
  refine ⟨rfl, ?_, ?_, ?_⟩
  · intro h
    obtain ⟨parts⟩ := c
    subst h
    rfl
  · intro hne hnone
    have hne2 : c.parts.isEmpty = false := by
      rcases hl : c.parts with _ | ⟨a, l⟩
      · exact absurd hl hne
      · rfl
    simp [append_tag_to_response, hne2, appendToLast_of_none tag c.parts hnone]
  · intro k p hk hg
    have hne2 : c.parts.isEmpty = false := by
      rcases hl : c.parts with _ | ⟨a, l⟩
      · rw [hl] at hg; cases hg
      · rfl
    refine ⟨?_, ?_⟩
    · simp [append_tag_to_response, hne2, appendToLast_of_some tag c.parts k p hk hg]
    · intro j hj
      exact List.get?_set_ne _ _ (Ne.symm hj)

/-- C7 counterexample: on a response with no content at all, the function
reports failure and creates no text segment, where the claim says a new
text segment containing only the tag is created and success reported. -/
theorem c7_counterexample :
    (append_tag_to_response ⟨none, none⟩ "T").ok = false ∧
    (append_tag_to_response ⟨none, none⟩ "T").resp.content = none ∧
    false ≠ true := ⟨rfl, rfl, by decide⟩

/-- C7 witness: on a one-part response the tag lands as a pure suffix after
a newline and the call reports success. -/
theorem c7_witness :
    (lastEligibleIdx [partFromText "hello"] = some 0 ∧
     [partFromText "hello"].get? 0 = some (partFromText "hello")) ∧
    append_tag_to_response ⟨some ⟨[partFromText "hello"]⟩, none⟩ "T"
      = ⟨⟨some ⟨[⟨some ("hello" ++ "\n" ++ "T"), false, none, none⟩]⟩, none⟩, true⟩ :=
  ⟨⟨rfl, rfl⟩,
   ((c7_append_tag_spec ⟨[partFromText "hello"]⟩ none "T").2.2.2 0
     (partFromText "hello") rfl rfl).1⟩

/-! ## C8 -/

/-- C8: when both the query-attempts buffer and the pending-widgets buffer
are non-empty for one response, the combined data analyst callback embeds
the query-history tag before the widget tags in the final text (attempts
are captured first, then widgets), the two widgets of ids w1, w2 appear as
two widget segments in insertion order separated by a newline, and both
buffers are empty afterwards. -/
theorem c8_channel_order_and_widgets
    (t qj j1 j2 : String) (attempts : List JsonVal) (w1 w2 : JsonVal)
    (gm : Option GroundingMetadata)
    (ht : t ≠ "")
    (ha : attempts.isEmpty = false)
    (hq : dumps (JsonVal.obj [("attempts", JsonVal.arr attempts)]) = some qj)
    (hc : countSuccesses attempts ≠ none)
    (h1 : dumps w1 = some j1) (h2 : dumps w2 = some j2) :
    data_analyst_after_model_callback ⟨[w1, w2], attempts⟩
        ⟨some ⟨[partFromText t]⟩, gm⟩
      = ⟨some ⟨some ⟨[⟨some (t ++ "\n"
              ++ (QUERIES_TAG_OPEN ++ qj ++ QUERIES_TAG_CLOSE) ++ "\n"
              ++ (WIDGET_TAG_OPEN ++ j1 ++ WIDGET_TAG_CLOSE ++ "\n"
                  ++ (WIDGET_TAG_OPEN ++ j2 ++ WIDGET_TAG_CLOSE))),
            false, none, none⟩]⟩, gm⟩,
         ⟨[], []⟩⟩ := by
  rcases hcs : countSuccesses attempts with _ | n
  · exact absurd hcs hc
  · have hemp : (t == "") = false := beq_eq_false_iff_ne.mpr ht
    have hqtag : (QUERIES_TAG_OPEN ++ qj ++ QUERIES_TAG_CLOSE) ≠ "" :=
      append_ne_empty_of_right _ _ (by decide)
    have hT1 : ((t ++ "\n" ++ (QUERIES_TAG_OPEN ++ qj ++ QUERIES_TAG_CLOSE)) == "")
        = false :=
      beq_eq_false_iff_ne.mpr (append_ne_empty_of_right _ _ hqtag)
    simp [data_analyst_after_model_callback, capture_query_attempts, capture_widgets,
      append_tag_to_response, appendToLast, eligiblePart, optStringTruthy,
      partFromText, widgetTags, joinSep, ha, hq, hcs, h1, h2, hemp, hT1]

/-- C8 witness: concrete attempts and widgets satisfy the hypotheses, and
the embedded text shows the query-history tag before the two widget tags
with both buffers cleared. -/
theorem c8_witness :
    (("Answer" : String) ≠ "" ∧
     c8Attempts.isEmpty = false ∧
     dumps (JsonVal.obj [("attempts", JsonVal.arr c8Attempts)])
        = some "\x7b\"attempts\":[\x7b\"query\":\"q1\",\"success\":true\x7d]\x7d" ∧
     countSuccesses c8Attempts ≠ none ∧
     dumps c8W1 = some "\x7b\"id\":\"w1\"\x7d" ∧
     dumps c8W2 = some "\x7b\"id\":\"w2\"\x7d") ∧
    data_analyst_after_model_callback ⟨[c8W1, c8W2], c8Attempts⟩
        ⟨some ⟨[partFromText "Answer"]⟩, none⟩
      = ⟨some ⟨some ⟨[⟨some ("Answer" ++ "\n"
              ++ (QUERIES_TAG_OPEN
                  ++ "\x7b\"attempts\":[\x7b\"query\":\"q1\",\"success\":true\x7d]\x7d"
                  ++ QUERIES_TAG_CLOSE) ++ "\n"
              ++ (WIDGET_TAG_OPEN ++ "\x7b\"id\":\"w1\"\x7d" ++ WIDGET_TAG_CLOSE ++ "\n"
                  ++ (WIDGET_TAG_OPEN ++ "\x7b\"id\":\"w2\"\x7d" ++ WIDGET_TAG_CLOSE))),
            false, none, none⟩]⟩, none⟩,
         ⟨[], []⟩⟩ :=
  ⟨⟨by decide, rfl, rfl, by decide, rfl, rfl⟩,
   c8_channel_order_and_widgets "Answer"
     "\x7b\"attempts\":[\x7b\"query\":\"q1\",\"success\":true\x7d]\x7d"
     "\x7b\"id\":\"w1\"\x7d" "\x7b\"id\":\"w2\"\x7d" c8Attempts c8W1 c8W2 none
     (by decide) rfl rfl (by decide) rfl rfl⟩

/-! ## C9 -/

/-- C9 (amended): the payload embedded between the sources tags is the
JSON object with exactly the keys queries, sources and supports, in that
order; queries holds strings, each sources element is an object with keys
title, uri, domain, and each supports element is an object with keys text,
startIndex, endIndex, sourceIndices. -/
theorem c9_sources_payload_shape (m : GroundingMetadata) :
    objKeys (serialize_grounding_metadata m) = ["queries", "sources", "supports"] ∧
    (∀ v ∈ m.webSearchQueries.map JsonVal.str, ∃ s, v = JsonVal.str s) ∧
    (∀ src ∈ groundingSources m, objKeys src = ["title", "uri", "domain"]) ∧
    (∀ sup ∈ groundingSupportsJson m,
        objKeys sup = ["text", "startIndex", "endIndex", "sourceIndices"]) := by
  refine ⟨rfl, ?_, ?_, ?_⟩
  · intro v hv
    obtain ⟨s, _, rfl⟩ := List.mem_map.mp hv
    exact ⟨s, rfl⟩
  · intro src hsrc
    obtain ⟨ch, _, hch⟩ := List.mem_filterMap.mp hsrc
    obtain ⟨w, _, rfl⟩ := Option.map_eq_some'.mp hch
    rfl
  · intro sup hsup
    obtain ⟨su, _, hsu⟩ := List.mem_filterMap.mp hsup
    obtain ⟨seg, _, rfl⟩ := Option.map_eq_some'.mp hsu
    rfl

/-- C9 counterexample: for a response with one web source, the payload
embedded between the sources tags carries the keys queries, sources AND
supports — not exactly the keys queries and sources as claimed. -/
theorem c9_counterexample :
    objKeys (serialize_grounding_metadata c9Meta)
      = ["queries", "sources", "supports"] ∧
    (["queries", "sources", "supports"] : List String) ≠ ["queries", "sources"] ∧
    ((capture_grounding_metadata c9Resp).1.map fun r =>
        r.content.map fun c => c.parts.map fun p => p.text.getD "")
      = some (some ["ans" ++ "\n" ++ (SOURCES_TAG_OPEN
          ++ "\x7b\"queries\":[\"q\"],\"sources\":[\x7b\"title\":\"T\",\"uri\":\"U\",\"domain\":\"D\"\x7d],\"supports\":[]\x7d"
          ++ SOURCES_TAG_CLOSE)]) := by
  refine ⟨rfl, by decide, rfl⟩

/-! ## C10 -/

/-- C10 counterexample: a tool-result record whose call id matches no known
tool call is collected in the first pass but dropped from the
reconstruction: the session with only the result event yields no message
at all, not a standalone tool-result segment. -/
theorem c10_counterexample :
    collectToolResults [c10Result] = some [("c1", "\x7b\"ok\":true\x7d")] ∧
    getSessionMessages [c10Result] = some [] := ⟨rfl, rfl⟩

/-- C10 (amended): every function-call part whose id has a collected
result contributes the call tag followed immediately by the tool-result
segment keyed by the same id; a result with no matching call is dropped.
In the concrete two-event session, the reconstruction yields one assistant
message holding the call tag and the inlined result tag. -/
theorem c10_matched_pair_inline :
    (∀ (results : List (String × String)) (p : GenPart) (fc : FunctionCall)
        (tid j rj : String),
      p.text = none → p.functionCall = some fc → fc.id = some tid → tid ≠ "" →
      resultJson fc.args = some j → lookupToolResult results tid = some rj →
      partContribution results p
        = some (toolTagOpen (fc.name.getD "unknown") tid ++ j ++ TOOL_TAG_CLOSE
            ++ (toolResultTagOpen tid ++ rj ++ TOOL_RESULT_TAG_CLOSE), true)) ∧
    getSessionMessages [c10Call, c10Result]
      = some [⟨"model",
          toolTagOpen "search" "c1" ++ "\x7b\"q\":\"x\"\x7d" ++ TOOL_TAG_CLOSE
            ++ (toolResultTagOpen "c1" ++ "\x7b\"ok\":true\x7d"
                ++ TOOL_RESULT_TAG_CLOSE),
          some 3, "i1"⟩] := by
  refine ⟨?_, rfl⟩
  intro results p fc tid j rj htext hfc hid htid hargs hlook
  have htid2 : (tid == "") = false := beq_eq_false_iff_ne.mpr htid
  simp [partContribution, htext, hfc, hid, htid2, hargs, hlook, optStringTruthy,
    String.empty_append]

end Knowsee
